import Mathlib

/-!
Verification of the Agentium real-time session core against its specification.

The development shallowly embeds the frontend session code:
* `useWebSocket.ts` — the WebSocket transport (`sendMessage`, `processMessageQueue`,
  `attemptReconnect`, the `onclose`/`onopen` handlers, `connect`, the two
  `handleMessage` variants),
* the application store (`budgetPercentage`, `budgetStatus`, `canSendMessage`),
* `useAgentium.ts` — the two cost-summary update paths,
* `useVoiceActivityDetection.ts` — the voice-activity state machine with its
  three timers, modelled as an event-driven machine over timestamped level
  samples with explicit timer deadlines,
* `audioBufferToWav` from the chat view — the WAV encoder.

JavaScript numbers that only ever flow through `+ - * /` and comparisons are
modelled as exact rationals; times are naturals (milliseconds).  Effects that
cross the component boundary (socket construction, `WebSocket.send`,
`MediaRecorder.start`) are modelled by explicit boolean outcomes passed in.
-/

namespace Agentium

/-! ## Wire messages and transport state (useWebSocket.ts) -/

/-- Message type tags of the wire protocol (the `WebSocketMessageType` enum). -/
inductive MsgType where
  | voiceInput
  | textInput
  | systemCommand
  | agentResponse
  | toolExecution
  | systemStatus
  | costUpdate
  | error
  | heartbeat
  | connectionStatus
  | unknown
deriving DecidableEq, Repr

/-- A wire message: its type tag plus an opaque payload (for heartbeats the
payload is the timestamp passed to `sendMessage`). -/
structure WireMessage where
  type : MsgType
  payload : Nat
deriving DecidableEq, Repr

/-- The reactive `WebSocketState` plus the outbound `messageQueue` ref of
`useWebSocket`. -/
structure WSState where
  connected : Bool
  connecting : Bool
  reconnectAttempts : Nat
  lastError : Option String
  messageQueue : List WireMessage
deriving DecidableEq, Repr

/-- `maxReconnectAttempts` constant of `useWebSocket`. -/
def maxReconnectAttempts : Nat := 5

/-- `reconnectInterval` constant of `useWebSocket` (base backoff delay, ms). -/
def reconnectInterval : Nat := 1000

/-- Heartbeat interval constant (ms) used by `startHeartbeat`. -/
def heartbeatIntervalMs : Nat := 30000

/-- `sendMessage(type, data)`.  `readyOpen` models `ws.readyState === OPEN`;
`txOk` models whether `ws.send` returns normally (`false` = it throws).
Returns the boolean result together with the updated state: transmitted
messages leave the state unchanged, a throwing send records `lastError`, and
a send while not connected (or socket not open) appends to the queue. -/
def sendMessage (st : WSState) (readyOpen txOk : Bool) (m : WireMessage) :
    Bool × WSState :=
  if st.connected && readyOpen then
    if txOk then (true, st)
    else (false, { st with lastError := some "Failed to send message" })
  else
    (false, { st with messageQueue := st.messageQueue ++ [m] })

/-- `processMessageQueue()`.  The loop `while (queue.length > 0 && connected)`
shifts the head; if the socket is `OPEN` it tries to send it (`txOk i` is the
outcome of the `i`-th send; on a throw the message is unshifted back and the
loop breaks), and if the socket is not open the shifted message is simply
skipped.  Returns the list of transmitted messages together with the
remaining queue. -/
def processMessageQueue (conn op : Bool) (txOk : Nat → Bool) :
    Nat → List WireMessage → List WireMessage × List WireMessage
  | _, [] => ([], [])
  | i, m :: rest =>
    if conn then
      if op then
        if txOk i then
          let r := processMessageQueue conn op txOk (i + 1) rest
          (m :: r.1, r.2)
        else ([], m :: rest)
      else processMessageQueue conn op txOk i rest
    else ([], m :: rest)

/-- `attemptReconnect()`: if `reconnectAttempts < maxReconnectAttempts`,
increment the counter and schedule `connect()` after
`reconnectInterval * 2 ^ (attempts - 1)` ms (the scheduled delay is returned
as `some delay`); otherwise record the terminal error and schedule nothing. -/
def attemptReconnect (st : WSState) : WSState × Option Nat :=
  if st.reconnectAttempts < maxReconnectAttempts then
    let st := { st with reconnectAttempts := st.reconnectAttempts + 1 }
    (st, some (reconnectInterval * 2 ^ (st.reconnectAttempts - 1)))
  else
    ({ st with lastError := some "Max reconnection attempts reached" }, none)

/-- The `ws.onclose` handler: clear the connected flags and, when the close
was not clean and reconnection attempts remain, call `attemptReconnect`. -/
def oncloseHandler (st : WSState) (wasClean : Bool) : WSState × Option Nat :=
  let st := { st with connected := false, connecting := false }
  if !wasClean && decide (st.reconnectAttempts < maxReconnectAttempts) then
    attemptReconnect st
  else (st, none)

/-- The `ws.onopen` handler: mark connected, reset the backoff counter. -/
def onopenHandler (st : WSState) : WSState :=
  { st with connected := true, connecting := false, reconnectAttempts := 0,
            lastError := none }

/-- `connect()`.  If already connecting or connected it returns the current
`connected` value without touching the socket.  Otherwise it marks
`connecting` and constructs the WebSocket: `ctorOk` models whether
`new WebSocket(url)` returns normally.  On success the function returns
`true` immediately — the `onopen` callback (which alone sets `connected`)
has not fired yet.  On a constructor throw it returns `false`. -/
def connect (st : WSState) (ctorOk : Bool) : Bool × WSState :=
  if st.connecting || st.connected then
    (st.connected, st)
  else
    let st1 := { st with connecting := true, lastError := none }
    if ctorOk then (true, st1)
    else (false, { st1 with connecting := false,
                            lastError := some "Unknown error" })

/-- Sending a batch of messages through `sendMessage` (socket not open, no
transmission) — the shape of traffic produced while disconnected. -/
def sendAllDisconnected (st : WSState) (ms : List WireMessage) : WSState :=
  ms.foldl (fun s m => (sendMessage s false true m).2) st

/-- The pristine transport state created by `useWebSocket`. -/
def initialState : WSState :=
  { connected := false, connecting := false, reconnectAttempts := 0,
    lastError := none, messageQueue := [] }

/-! ## Inbound dispatch (the two `handleMessage` variants) -/

/-- Where `handleMessage` routes an inbound message (which registered callback
category runs, beyond the unconditional `onMessage`). -/
inductive Dispatch where
  | agentResponseCb
  | costUpdateCb
  | systemStatusCb
  | toolExecutionCb
  | errorCb
  | heartbeatCase
  | connectionStatusCase
  | unknownLogged
deriving DecidableEq, Repr

/-- The first (older) `handleMessage` variant.  Returns the dispatch category
together with the outbound messages it hands to `sendMessage`: its
`heartbeat` case replies with a fresh heartbeat carrying `Date.now()`
(modelled by `now`). -/
def handleMessageV1 (now : Nat) (m : WireMessage) : Dispatch × List WireMessage :=
  match m.type with
  | .agentResponse => (.agentResponseCb, [])
  | .costUpdate => (.costUpdateCb, [])
  | .systemStatus => (.systemStatusCb, [])
  | .toolExecution => (.toolExecutionCb, [])
  | .error => (.errorCb, [])
  | .heartbeat => (.heartbeatCase, [{ type := .heartbeat, payload := now }])
  | .connectionStatus => (.connectionStatusCase, [])
  | _ => (.unknownLogged, [])

/-- The second (newer, message-shape-normalizing) `handleMessage` variant.
Its `heartbeat` case only logs; no case calls `sendMessage`. -/
def handleMessageV2 (m : WireMessage) : Dispatch × List WireMessage :=
  match m.type with
  | .agentResponse => (.agentResponseCb, [])
  | .costUpdate => (.costUpdateCb, [])
  | .systemStatus => (.systemStatusCb, [])
  | .toolExecution => (.toolExecutionCb, [])
  | .error => (.errorCb, [])
  | .heartbeat => (.heartbeatCase, [])
  | .connectionStatus => (.connectionStatusCase, [])
  | _ => (.unknownLogged, [])

/-! ## Cost ledger (store state in the app module, update paths in useAgentium.ts) -/

/-- The `CostSummary` store value.  `lastUpdate : Date` carries no budget
information and is omitted. -/
structure CostSummary where
  sessionCost : ℚ
  budgetLimit : ℚ
  budgetRemaining : ℚ
  costBreakdown : List (String × ℚ)
deriving DecidableEq, Repr

/-- `budgetPercentage`: `(sessionCost / budgetLimit) * 100`. -/
def budgetPercentage (c : CostSummary) : ℚ :=
  c.sessionCost / c.budgetLimit * 100

/-- `budgetStatus`: `critical` when the percentage is strictly above 90,
`warning` when strictly above 75, otherwise `safe`. -/
def budgetStatus (c : CostSummary) : String :=
  if budgetPercentage c > 90 then "critical"
  else if budgetPercentage c > 75 then "warning"
  else "safe"

/-- `canSendMessage` computed property of the store: connected and not
currently awaiting a response.  It reads no budget field. -/
def canSendMessage (connected isTyping : Bool) : Bool :=
  connected && !isTyping

/-- The cost branch of `onAgentResponse` in `useAgentium.ts`: when the
response carries a positive cost, add it to `sessionCost` and recompute
`budgetRemaining` as `budgetLimit - currentCost` (limit and breakdown are
left untouched by the partial store update). -/
def applyAgentResponseCost (c : CostSummary) (cost : ℚ) : CostSummary :=
  if cost > 0 then
    let currentCost := c.sessionCost + cost
    { c with sessionCost := currentCost,
             budgetRemaining := c.budgetLimit - currentCost }
  else c

/-- `onCostUpdate` in `useAgentium.ts`: overwrite the summary with the
server-sent absolute snapshot.  `budgetRemaining` is stored verbatim from
the message; `budget_limit` falls back to the previous limit when it parses
to `0` (the `parseCost(...) || store.budgetLimit` fallback). -/
def applyCostUpdate (c : CostSummary) (sessionCost budgetRemaining budgetLimit : ℚ)
    (breakdown : List (String × ℚ)) : CostSummary :=
  { sessionCost := sessionCost,
    budgetRemaining := budgetRemaining,
    budgetLimit := if budgetLimit = 0 then c.budgetLimit else budgetLimit,
    costBreakdown := breakdown }

/-! ## Voice activity detection (useVoiceActivityDetection.ts)

The composable reacts to audio-level callbacks and to three `setTimeout`
timers (speech-arm, silence-confirm, max-duration).  We model it as a state
machine over timestamped level samples: each pending timer is an explicit
deadline, and before a sample at time `t` is handled every timer whose
deadline is `≤ t` fires (earliest first), exactly as the single-threaded
event loop would run the callbacks.  `recOk` models whether
`audioRecording.startRecording()` succeeds. -/

/-- The `VADOptions` configuration (times in ms, threshold in [0,1]). -/
structure VADOptions where
  threshold : ℚ
  silenceTimeout : Nat
  speechTimeout : Nat
  minSpeechDuration : Nat
  maxSpeechDuration : Nat
deriving DecidableEq, Repr

/-- Events delivered through the VAD callbacks. -/
inductive VADEvent where
  | speechStart
  | speechEnd
  | maxDurationReached
deriving DecidableEq, Repr

/-- The `VADState` ref plus the module-local variables (`lastAudioLevel`,
`speechStartTime`, `silenceStartTime`) and the three timers, each modelled
as an optional absolute deadline. -/
structure VADMachine where
  isListening : Bool
  isActive : Bool
  speechDetected : Bool
  silenceDuration : Nat
  speechDuration : Nat
  lastAudioLevel : ℚ
  speechStartTime : Nat
  silenceStartTime : Nat
  speechDeadline : Option Nat
  silenceDeadline : Option Nat
  maxDeadline : Option Nat
deriving DecidableEq, Repr

/-- The machine right after `start()`: listening, no speech, no timers. -/
def vadStart : VADMachine :=
  { isListening := true, isActive := false, speechDetected := false,
    silenceDuration := 0, speechDuration := 0, lastAudioLevel := 0,
    speechStartTime := 0, silenceStartTime := 0,
    speechDeadline := none, silenceDeadline := none, maxDeadline := none }

/-- `clearAllTimers()`. -/
def clearAllTimers (s : VADMachine) : VADMachine :=
  { s with speechDeadline := none, silenceDeadline := none, maxDeadline := none }

/-- `resetState()`: drop the speech flags, zero the durations and start
times, and cancel every timer. -/
def resetState (s : VADMachine) : VADMachine :=
  clearAllTimers
    { s with speechDetected := false, isActive := false,
             silenceDuration := 0, speechDuration := 0,
             speechStartTime := 0, silenceStartTime := 0 }

/-- `startSpeechRecording()` running at time `t`: guard, set the speech
flags and `speechStartTime`, start the recorder; on success emit
`SpeechStarted` (the `onSpeechStart` callback) and arm the max-duration
timer, on failure roll the flags back. -/
def startSpeechRecording (cfg : VADOptions) (recOk : Bool) (t : Nat)
    (s : VADMachine) : VADMachine × List VADEvent :=
  if !s.isListening || s.speechDetected then (s, [])
  else
    let s := { s with speechDetected := true, isActive := true,
                      speechStartTime := t }
    if recOk then
      ({ s with maxDeadline := some (t + cfg.maxSpeechDuration) },
       [.speechStart])
    else
      ({ s with speechDetected := false, isActive := false }, [])

/-- `endSpeechRecording()` running at time `t`: compute the speech duration;
below `minSpeechDuration` the utterance is discarded via `resetState` with
no event, otherwise clear the flags, record the duration, emit `SpeechEnded`
(the `onSpeechEnd` callback) and cancel every timer. -/
def endSpeechRecording (cfg : VADOptions) (t : Nat) (s : VADMachine) :
    VADMachine × List VADEvent :=
  if !s.speechDetected then (s, [])
  else
    let dur := t - s.speechStartTime
    if dur < cfg.minSpeechDuration then (resetState s, [])
    else
      (clearAllTimers
        { s with speechDetected := false, isActive := false,
                 speechDuration := dur },
       [.speechEnd])

/-- `handleVoiceDetected()` for a voiced sample at time `t`: cancel a running
silence timer; while no speech is detected arm the speech-arm timer (if not
already pending), otherwise update the running speech duration. -/
def handleVoiceDetected (cfg : VADOptions) (t : Nat) (s : VADMachine) :
    VADMachine :=
  let s :=
    if s.silenceDeadline.isSome then
      { s with silenceDeadline := none, silenceDuration := 0 }
    else s
  if !s.speechDetected then
    if s.speechDeadline.isNone then
      { s with speechDeadline := some (t + cfg.speechTimeout) }
    else s
  else
    if s.speechStartTime > 0 then
      { s with speechDuration := t - s.speechStartTime }
    else s

/-- `handleSilenceDetected()` for a non-voiced sample at time `t`: cancel a
running speech-arm timer; during speech arm the silence-confirm timer (if
not already pending, recording `silenceStartTime`), else update the running
silence duration. -/
def handleSilenceDetected (cfg : VADOptions) (t : Nat) (s : VADMachine) :
    VADMachine :=
  let s := if s.speechDeadline.isSome then { s with speechDeadline := none } else s
  if s.speechDetected then
    if s.silenceDeadline.isNone then
      { s with silenceStartTime := t,
               silenceDeadline := some (t + cfg.silenceTimeout) }
    else
      { s with silenceDuration := t - s.silenceStartTime }
  else s

/-- `handleAudioLevel(level)` at time `t`: ignore samples while not
listening, record `lastAudioLevel`, and branch on `level > threshold`. -/
def handleAudioLevel (cfg : VADOptions) (t : Nat) (level : ℚ)
    (s : VADMachine) : VADMachine :=
  if !s.isListening then s
  else
    let s := { s with lastAudioLevel := level }
    if level > cfg.threshold then handleVoiceDetected cfg t s
    else handleSilenceDetected cfg t s

/-- Which timer a pending deadline belongs to. -/
inductive TimerKind where
  | speechT
  | silenceT
  | maxT
deriving DecidableEq, Repr

/-- The earliest pending timer.  On equal deadlines the max-duration timer
(registered at speech start, before any silence timer) wins, matching the
registration order of the event loop; the speech-arm timer never coexists
with the other two. -/
def earliestTimer (s : VADMachine) : Option (TimerKind × Nat) :=
  let cands : List (TimerKind × Nat) :=
    (match s.maxDeadline with | some d => [(TimerKind.maxT, d)] | none => []) ++
    (match s.silenceDeadline with | some d => [(TimerKind.silenceT, d)] | none => []) ++
    (match s.speechDeadline with | some d => [(TimerKind.speechT, d)] | none => [])
  cands.foldl
    (fun acc c =>
      match acc with
      | none => some c
      | some b => if c.2 < b.2 then some c else some b)
    none

/-- The speech-arm timer callback, firing at its deadline `d`: if still
listening and the last level was voiced, start speech; the timer handle is
nulled. -/
def fireSpeechTimer (cfg : VADOptions) (recOk : Bool) (d : Nat)
    (s : VADMachine) : VADMachine × List VADEvent :=
  let s := { s with speechDeadline := none }
  if s.isListening && decide (s.lastAudioLevel > cfg.threshold) then
    startSpeechRecording cfg recOk d s
  else (s, [])

/-- The silence-confirm timer callback, firing at its deadline `d`: if still
listening and speech is active, end the speech. -/
def fireSilenceTimer (cfg : VADOptions) (d : Nat) (s : VADMachine) :
    VADMachine × List VADEvent :=
  let s := { s with silenceDeadline := none }
  if s.isListening && s.speechDetected then endSpeechRecording cfg d s
  else (s, [])

/-- The max-duration timer callback, firing at its deadline `d`: emit
`MaxDurationReached` (unconditionally, as the callback does) and force the
end of speech. -/
def fireMaxTimer (cfg : VADOptions) (d : Nat) (s : VADMachine) :
    VADMachine × List VADEvent :=
  let s := { s with maxDeadline := none }
  let r := endSpeechRecording cfg d s
  (r.1, .maxDurationReached :: r.2)

/-- Dispatch a firing timer. -/
def fireTimer (cfg : VADOptions) (recOk : Bool) (k : TimerKind) (d : Nat)
    (s : VADMachine) : VADMachine × List VADEvent :=
  match k with
  | .speechT => fireSpeechTimer cfg recOk d s
  | .silenceT => fireSilenceTimer cfg d s
  | .maxT => fireMaxTimer cfg d s

/-- Fire, earliest first, every timer whose deadline is `≤ t` (the callbacks
the event loop runs before delivering a sample stamped `t`).  At most three
timers can ever be pending and a firing arms at most one new timer, so the
fuel bound of `timerFuel` is never reached. -/
def fireDueTimers (cfg : VADOptions) (recOk : Bool) :
    Nat → Nat → VADMachine → VADMachine × List VADEvent
  | 0, _, s => (s, [])
  | fuel + 1, t, s =>
    match earliestTimer s with
    | none => (s, [])
    | some kd =>
      if kd.2 ≤ t then
        let r := fireTimer cfg recOk kd.1 kd.2 s
        let r2 := fireDueTimers cfg recOk fuel t r.1
        (r2.1, r.2 ++ r2.2)
      else (s, [])

/-- Fuel bound for timer cascades between two samples. -/
def timerFuel : Nat := 6

/-- After the last sample, let every still-pending timer fire at its own
deadline (the input falls silent and the event loop keeps running). -/
def flushTimers (cfg : VADOptions) (recOk : Bool) :
    Nat → VADMachine → VADMachine × List VADEvent
  | 0, s => (s, [])
  | fuel + 1, s =>
    match earliestTimer s with
    | none => (s, [])
    | some kd =>
      let r := fireTimer cfg recOk kd.1 kd.2 s
      let r2 := flushTimers cfg recOk fuel r.1
      (r2.1, r.2 ++ r2.2)

/-- One sample step: run the timer callbacks due at the sample's timestamp,
then the level handler. -/
def vadStep (cfg : VADOptions) (recOk : Bool)
    (acc : VADMachine × List VADEvent) (p : Nat × ℚ) :
    VADMachine × List VADEvent :=
  (handleAudioLevel cfg p.1 p.2 (fireDueTimers cfg recOk timerFuel p.1 acc.1).1,
   acc.2 ++ (fireDueTimers cfg recOk timerFuel p.1 acc.1).2)

/-- Run the machine from `start()` over a time-ordered list of
`(timestamp, level)` samples, then let the remaining timers fire.  Returns
the final machine and the events emitted, in order. -/
def vadRun (cfg : VADOptions) (recOk : Bool) (samples : List (Nat × ℚ)) :
    VADMachine × List VADEvent :=
  ((flushTimers cfg recOk timerFuel
      (samples.foldl (vadStep cfg recOk) (vadStart, [])).1).1,
   (samples.foldl (vadStep cfg recOk) (vadStart, [])).2 ++
     (flushTimers cfg recOk timerFuel
       (samples.foldl (vadStep cfg recOk) (vadStart, [])).1).2)

/-- The events a sample trace produces. -/
def vadEvents (cfg : VADOptions) (recOk : Bool)
    (samples : List (Nat × ℚ)) : List VADEvent :=
  (vadRun cfg recOk samples).2

/-! ## WAV encoding (`audioBufferToWav` in the chat view)

The encoder reads only `length`, `sampleRate`, `numberOfChannels` and the
first one or two channel-data arrays of the `AudioBuffer`, and writes a
44-byte RIFF/WAVE header followed by little-endian 16-bit PCM samples.
`DataView.setInt16` converts its argument with ECMAScript `ToInt16`:
truncation toward zero, then reduction modulo 2^16. -/

/-- The parts of a Web Audio `AudioBuffer` the encoder reads.  `length` (the
per-channel frame count) equals the channel-data length. -/
structure JsAudioBuffer where
  numberOfChannels : Nat
  sampleRate : Nat
  channel0 : List ℚ
  channel1 : List ℚ
deriving DecidableEq, Repr

/-- Truncation toward zero of a rational, as ECMAScript `ToIntegerOrInfinity`
does before the modular reduction of `setInt16`. -/
def ratTrunc (q : ℚ) : Int :=
  Int.sign q.num * (q.num.natAbs / q.den : Nat)

/-- Two little-endian bytes of a 16-bit value (after `ToUint16`-style
reduction of an integer). -/
def int16leBytes (v : Int) : List Nat :=
  let u := (v % 65536).toNat
  [u % 256, u / 256]

/-- Two little-endian bytes of `setUint16`. -/
def u16le (n : Nat) : List Nat :=
  let u := n % 65536
  [u % 256, u / 256]

/-- Four little-endian bytes of `setUint32`. -/
def u32le (n : Nat) : List Nat :=
  let u := n % 4294967296
  [u % 256, u / 256 % 256, u / 65536 % 256, u / 16777216 % 256]

/-- One sample: clamp to [-1, 1], scale by 0x7FFF, truncate, two LE bytes. -/
def sampleToBytes (q : ℚ) : List Nat :=
  int16leBytes (ratTrunc (max (-1) (min 1 q) * 32767))

/-- `audioBufferToWav`: force mono (averaging the first two channels when the
input is not mono), then the RIFF/WAVE header — chunk sizes, PCM format tag
`1`, one channel, sample rate, byte rate, block align `2`, 16 bits — and the
quantized samples.  A pure function of the four fields read. -/
def audioBufferToWav (b : JsAudioBuffer) : List Nat :=
  let len := b.channel0.length
  let channelData : List ℚ :=
    if b.numberOfChannels = 1 then b.channel0
    else List.zipWith (fun l r => (l + r) / 2) b.channel0 b.channel1
  let header : List Nat :=
    [82, 73, 70, 70] ++ u32le (36 + len * 2) ++
    [87, 65, 86, 69] ++ [102, 109, 116, 32] ++
    u32le 16 ++ u16le 1 ++ u16le 1 ++ u32le b.sampleRate ++
    u32le (b.sampleRate * 1 * 2) ++ u16le (1 * 2) ++ u16le 16 ++
    [100, 97, 116, 97] ++ u32le (len * 2)
  header ++ (channelData.map sampleToBytes).flatten

/-! ## Shared concrete values used by witnesses and counterexamples -/

/-- A connected transport state with an empty queue. -/
def stConnected : WSState :=
  { connected := true, connecting := false, reconnectAttempts := 0,
    lastError := none, messageQueue := [] }

/-- A sample text message. -/
def msgA : WireMessage := { type := .textInput, payload := 1 }

/-- A sample voice message. -/
def msgB : WireMessage := { type := .voiceInput, payload := 2 }

/-- The cost summary of the spec scenario: `sessionCost = 95`,
`budgetLimit = 100`. -/
def cost95 : CostSummary :=
  { sessionCost := 95, budgetLimit := 100, budgetRemaining := 5,
    costBreakdown := [] }

/-! ## C1 — budget gating of sends -/

/-- C1 counterexample.  At `sessionCost = 95, budgetLimit = 100` the status
is indeed `critical`, but `send("text_input", …)` on a connected transport
is transmitted and returns `true`: `sendMessage` consults no budget state
and has no `BudgetExceeded` outcome, so the claimed rejection is false. -/
theorem C1_counterexample :
    budgetStatus cost95 = "critical" ∧
    (sendMessage stConnected true true msgA).1 = true ∧
    (sendMessage stConnected true true msgA).2 = stConnected := by
  refine ⟨by norm_num [budgetStatus, budgetPercentage, cost95], rfl, rfl⟩

/-- C1 amended: with `sessionCost = 95, budgetLimit = 100` the ledger status
is `critical`, but outbound sends are not budget-gated — on a connected
transport with an open socket every message (voice, text or otherwise) is
transmitted unchanged and `sendMessage` returns `true`; no `BudgetExceeded`
rejection exists in the send path, and the store's `canSendMessage` reads
only the connected and typing flags. -/
theorem C1_amended :
    budgetStatus cost95 = "critical" ∧
    (∀ st : WSState, ∀ m : WireMessage, st.connected = true →
        sendMessage st true true m = (true, st)) ∧
    canSendMessage true false = true := by
  refine ⟨by norm_num [budgetStatus, budgetPercentage, cost95], ?_, rfl⟩
  intro st m h
  simp [sendMessage, h]

/-- C1 amended, instantiated at the scenario input. -/
theorem C1_amended_witness :
    budgetStatus cost95 = "critical" ∧
    sendMessage stConnected true true msgA = (true, stConnected) :=
  ⟨C1_amended.1, C1_amended.2.1 stConnected msgA rfl⟩

/-! ## C2 — the budgetRemaining invariant -/

/-- C2 counterexample.  A `cost_update` snapshot with `session_cost = 10`,
`budget_remaining = 50`, `budget_limit = 100` is stored verbatim, leaving
`budgetRemaining = 50 ≠ 100 - 10`: the field is not recomputed from the
other two on this path. -/
theorem C2_counterexample :
    (applyCostUpdate { sessionCost := 0, budgetLimit := 100,
                       budgetRemaining := 100, costBreakdown := [] }
        10 50 100 []).budgetRemaining ≠
      (applyCostUpdate { sessionCost := 0, budgetLimit := 100,
                         budgetRemaining := 100, costBreakdown := [] }
          10 50 100 []).budgetLimit -
        (applyCostUpdate { sessionCost := 0, budgetLimit := 100,
                           budgetRemaining := 100, costBreakdown := [] }
            10 50 100 []).sessionCost := by
  norm_num [applyCostUpdate]

/-- C2 amended: after a per-response cost delta (`agent_response` path) the
stored summary always satisfies `budgetRemaining = budgetLimit -
sessionCost`, the field being recomputed from the other two; after a
`cost_update` snapshot the field is stored verbatim from the message, so
the equation holds exactly when the server snapshot is itself consistent
(and the limit does not hit the zero-fallback). -/
theorem C2_amended :
    (∀ c : CostSummary, ∀ cost : ℚ, 0 < cost →
        (applyAgentResponseCost c cost).budgetRemaining =
          (applyAgentResponseCost c cost).budgetLimit -
            (applyAgentResponseCost c cost).sessionCost) ∧
    (∀ c : CostSummary, ∀ sc br bl : ℚ, ∀ bd : List (String × ℚ),
        br = bl - sc → bl ≠ 0 →
        (applyCostUpdate c sc br bl bd).budgetRemaining =
          (applyCostUpdate c sc br bl bd).budgetLimit -
            (applyCostUpdate c sc br bl bd).sessionCost) := by
  constructor
  · intro c cost h
    simp [applyAgentResponseCost, h]
  · intro c sc br bl bd hbr hbl
    simp [applyCostUpdate, hbl, hbr]

/-- C2 amended, instantiated: a delta of 5 on the 95/100 summary and a
consistent snapshot both satisfy the invariant. -/
theorem C2_amended_witness :
    (applyAgentResponseCost cost95 5).budgetRemaining =
      (applyAgentResponseCost cost95 5).budgetLimit -
        (applyAgentResponseCost cost95 5).sessionCost ∧
    (applyCostUpdate cost95 10 90 100 []).budgetRemaining =
      (applyCostUpdate cost95 10 90 100 []).budgetLimit -
        (applyCostUpdate cost95 10 90 100 []).sessionCost :=
  ⟨C2_amended.1 cost95 5 (by norm_num),
   C2_amended.2 cost95 10 90 100 [] (by norm_num) (by norm_num)⟩

/-! ## C3 — budget status thresholds -/

/-- C3 counterexample.  The thresholds are strict: at exactly 75% the status
is `safe` (not `warning`) and at exactly 90% it is `warning` (not
`critical`). -/
theorem C3_counterexample :
    ¬ (budgetStatus { sessionCost := 75, budgetLimit := 100,
                      budgetRemaining := 25, costBreakdown := [] } = "warning" ∧
       budgetStatus { sessionCost := 90, budgetLimit := 100,
                      budgetRemaining := 10, costBreakdown := [] } = "critical") ∧
    budgetStatus { sessionCost := 75, budgetLimit := 100,
                   budgetRemaining := 25, costBreakdown := [] } = "safe" ∧
    budgetStatus { sessionCost := 90, budgetLimit := 100,
                   budgetRemaining := 10, costBreakdown := [] } = "warning" := by
  have h75 : budgetStatus { sessionCost := 75, budgetLimit := 100,
                            budgetRemaining := 25, costBreakdown := [] } = "safe" := by
    norm_num [budgetStatus, budgetPercentage]
  have h90 : budgetStatus { sessionCost := 90, budgetLimit := 100,
                            budgetRemaining := 10, costBreakdown := [] } = "warning" := by
    norm_num [budgetStatus, budgetPercentage]
  refine ⟨?_, h75, h90⟩
  rw [h75, h90]
  decide

/-- C3 amended: for every summary (the percentage being
`sessionCost / budgetLimit * 100`), the status is `critical` iff the
percentage is strictly above 90, `warning` iff it is strictly above 75 and
at most 90, and `safe` iff it is at most 75. -/
theorem C3_amended (c : CostSummary) (hpos : 0 < c.budgetLimit) :
    (budgetStatus c = "critical" ↔ 90 < budgetPercentage c) ∧
    (budgetStatus c = "warning" ↔
      75 < budgetPercentage c ∧ budgetPercentage c ≤ 90) ∧
    (budgetStatus c = "safe" ↔ budgetPercentage c ≤ 75) := by
  have hcw : ("critical" : String) ≠ "warning" := by decide
  have hcs : ("critical" : String) ≠ "safe" := by decide
  have hwc : ("warning" : String) ≠ "critical" := by decide
  have hws : ("warning" : String) ≠ "safe" := by decide
  have hsc : ("safe" : String) ≠ "critical" := by decide
  have hsw : ("safe" : String) ≠ "warning" := by decide
  unfold budgetStatus
  by_cases h90 : budgetPercentage c > 90
  · rw [if_pos h90]
    exact ⟨iff_of_true rfl h90,
      iff_of_false hcw (fun hh => absurd h90 (not_lt.2 hh.2)),
      iff_of_false hcs (fun hle => absurd h90 (not_lt.2 (hle.trans (by norm_num))))⟩
  · rw [if_neg h90]
    by_cases h75 : budgetPercentage c > 75
    · rw [if_pos h75]
      exact ⟨iff_of_false hwc h90,
        iff_of_true rfl ⟨h75, not_lt.1 h90⟩,
        iff_of_false hws (fun hle => absurd h75 (not_lt.2 hle))⟩
    · rw [if_neg h75]
      exact ⟨iff_of_false hsc h90,
        iff_of_false hsw (fun hh => h75 hh.1),
        iff_of_true rfl (not_lt.1 h75)⟩

/-- C3 amended, instantiated at the 95/100 summary (percentage 95). -/
theorem C3_amended_witness :
    budgetStatus cost95 = "critical" ↔ 90 < budgetPercentage cost95 :=
  (C3_amended cost95 (by norm_num [cost95])).1

/-! ## C4 — the outbound queue drains FIFO, exactly once -/

/-- Sends while disconnected append to the queue in order and leave the
transport disconnected. -/
lemma sendAllDisconnected_queue (ms : List WireMessage) :
    ∀ st : WSState, st.connected = false →
      (sendAllDisconnected st ms).messageQueue = st.messageQueue ++ ms ∧
      (sendAllDisconnected st ms).connected = false := by
  induction ms with
  | nil => intro st h; simp [sendAllDisconnected, h]
  | cons m rest ih =>
    intro st h
    have hstep : (sendMessage st false true m).2 =
        { st with messageQueue := st.messageQueue ++ [m] } := by
      simp [sendMessage, h]
    have := ih (sendMessage st false true m).2 (by rw [hstep]; exact h)
    rw [hstep] at this
    simpa [sendAllDisconnected, hstep] using this

/-- When every transmission succeeds, the drain loop sends the whole queue
in order and empties it. -/
lemma processMessageQueue_all_ok (txOk : Nat → Bool) (h : ∀ i, txOk i = true) :
    ∀ q : List WireMessage, ∀ i : Nat,
      processMessageQueue true true txOk i q = (q, []) := by
  intro q
  induction q with
  | nil => intro i; rfl
  | cons m rest ih =>
    intro i
    simp [processMessageQueue, h i, ih (i + 1)]

/-- C4.  Messages sent while the transport is not connected are each
appended to the outbound queue in send order; on the next successful
connect (socket open, every transmission succeeding — `txOk`), the queue
drain transmits exactly the queued messages, in the original order, leaving
the queue empty: nothing is dropped, duplicated or reordered. -/
theorem C4_outbound_queue (ms : List WireMessage) (txOk : Nat → Bool)
    (hTx : ∀ i, txOk i = true) :
    (sendAllDisconnected initialState ms).messageQueue = ms ∧
    processMessageQueue true true txOk 0
        (sendAllDisconnected initialState ms).messageQueue = (ms, []) := by
  have hq := sendAllDisconnected_queue ms initialState rfl
  have hq1 : (sendAllDisconnected initialState ms).messageQueue = ms := by
    simpa [initialState] using hq.1
  exact ⟨hq1, by rw [hq1]; exact processMessageQueue_all_ok txOk hTx ms 0⟩

/-- C4, instantiated on a two-message backlog with all sends succeeding. -/
theorem C4_outbound_queue_witness :
    (sendAllDisconnected initialState [msgA, msgB]).messageQueue = [msgA, msgB] ∧
    processMessageQueue true true (fun _ => true) 0
        (sendAllDisconnected initialState [msgA, msgB]).messageQueue =
      ([msgA, msgB], []) :=
  C4_outbound_queue [msgA, msgB] (fun _ => true) (fun _ => rfl)

/-! ## C5 — exponential reconnect backoff -/

/-- C5.  On a non-clean close with `reconnectAttempts <
maxReconnectAttempts`, the handler increments the counter and schedules a
reconnect after `reconnectInterval * 2 ^ (attempts - 1)` ms; the successive
delays are 1000, 2000, 4000, 8000, 16000 ms, strictly increasing; once the
counter has reached `maxReconnectAttempts` no reconnect is scheduled,
whether the close was clean or not. -/
theorem C5_reconnect_backoff :
    (∀ st : WSState, st.reconnectAttempts < maxReconnectAttempts →
        (oncloseHandler st false).2 =
          some (reconnectInterval * 2 ^ st.reconnectAttempts) ∧
        (oncloseHandler st false).1.reconnectAttempts =
          st.reconnectAttempts + 1) ∧
    List.map (fun a => reconnectInterval * 2 ^ a)
        (List.range maxReconnectAttempts) = [1000, 2000, 4000, 8000, 16000] ∧
    List.Chain' (fun x y => x < y) [1000, 2000, 4000, 8000, 16000] ∧
    (∀ st : WSState, ∀ wasClean : Bool,
        maxReconnectAttempts ≤ st.reconnectAttempts →
        (oncloseHandler st wasClean).2 = none) := by
  refine ⟨?_, by decide, by simp [List.chain'_cons], ?_⟩
  · intro st h
    constructor
    · simp [oncloseHandler, attemptReconnect, h]
    · simp [oncloseHandler, attemptReconnect, h]
  · intro st wasClean h
    have hnot : ¬ st.reconnectAttempts < maxReconnectAttempts := not_lt.2 h
    cases wasClean <;> simp [oncloseHandler, attemptReconnect, hnot]

/-- C5, instantiated: the first backoff delay is 1000 ms, and with the
counter exhausted nothing is scheduled. -/
theorem C5_reconnect_backoff_witness :
    (oncloseHandler initialState false).2 = some 1000 ∧
    (oncloseHandler { initialState with reconnectAttempts := 5 } false).2 =
      none := by
  constructor
  · have h := (C5_reconnect_backoff.1 initialState (by decide)).1
    rw [h]; norm_num [initialState, reconnectInterval]
  · exact C5_reconnect_backoff.2.2.2 _ false (by decide)

/-! ## C7 — heartbeat handling -/

/-- C7 counterexample.  The first `handleMessage` variant replies to an
inbound heartbeat with a fresh outbound heartbeat (carrying the current
time), so it is not the case that inbound heartbeats trigger only normal
dispatch. -/
theorem C7_counterexample :
    (handleMessageV1 42 { type := .heartbeat, payload := 7 }).2 =
      [{ type := .heartbeat, payload := 42 }] ∧
    (handleMessageV1 42 { type := .heartbeat, payload := 7 }).2 ≠ [] := by
  decide

/-- C7 amended: the newer (normalizing) `handleMessage` variant sends
nothing in response to any inbound message — an inbound heartbeat gets only
normal dispatch; the older variant, however, replies to each inbound
heartbeat with exactly one outbound heartbeat, while sending nothing for
any other message type. -/
theorem C7_amended (now : Nat) (m : WireMessage) :
    (handleMessageV2 m).2 = [] ∧
    (m.type = .heartbeat →
      (handleMessageV1 now m).2 =
        [{ type := .heartbeat, payload := now }]) ∧
    (m.type ≠ .heartbeat → (handleMessageV1 now m).2 = []) := by
  obtain ⟨t, p⟩ := m
  refine ⟨?_, ?_, ?_⟩ <;> cases t <;> simp [handleMessageV1, handleMessageV2]

/-- C7 amended, instantiated at an inbound heartbeat. -/
theorem C7_amended_witness :
    (handleMessageV2 { type := .heartbeat, payload := 7 }).2 = [] ∧
    (handleMessageV1 42 { type := .heartbeat, payload := 7 }).2 =
      [{ type := .heartbeat, payload := 42 }] :=
  ⟨(C7_amended 42 { type := .heartbeat, payload := 7 }).1,
   (C7_amended 42 { type := .heartbeat, payload := 7 }).2.1 rfl⟩

/-! ## C8 — the WAV encoder is pure and deterministic -/

/-- C8.  `audioBufferToWav` is a pure function of the samples, sample rate
and channel count it reads: any two buffers agreeing on those fields
produce byte-identical output — there is no hidden or mutable state. -/
theorem C8_wav_deterministic (b1 b2 : JsAudioBuffer)
    (hch : b1.numberOfChannels = b2.numberOfChannels)
    (hsr : b1.sampleRate = b2.sampleRate)
    (h0 : b1.channel0 = b2.channel0)
    (h1 : b1.channel1 = b2.channel1) :
    audioBufferToWav b1 = audioBufferToWav b2 := by
  cases b1; cases b2
  cases hch; cases hsr; cases h0; cases h1
  rfl

/-- C8, instantiated on two syntactically different but equal mono buffers. -/
theorem C8_wav_deterministic_witness :
    audioBufferToWav { numberOfChannels := 1, sampleRate := 16000,
                       channel0 := [mkRat 2 4], channel1 := [] } =
      audioBufferToWav { numberOfChannels := 1, sampleRate := 16000,
                         channel0 := [mkRat 1 2], channel1 := [] } :=
  C8_wav_deterministic _ _ rfl rfl (by decide) rfl

/-! ## C9 — what `connect()` returning true means -/

/-- C9 counterexample.  `connect()` called while a connection attempt is
already in progress (connecting, not yet connected) returns `false` through
the idempotence early-return without constructing a socket — so `false` is
not returned only on a constructor throw. -/
theorem C9_counterexample :
    (connect { connected := false, connecting := true, reconnectAttempts := 0,
               lastError := none, messageQueue := [] } true).1 = false := by
  decide

/-- C9 amended: from an idle transport (neither connected nor connecting),
`connect()` returns `true` as soon as the socket object is constructed,
while `connected` is still `false` (only the later `onopen` callback sets
it), and returns `false` when construction throws; additionally, a call
made while an attempt is already in progress returns the current
`connected` value (hence `false` mid-connect) without touching the
socket. -/
theorem C9_amended (st : WSState) (ctorOk : Bool) :
    (st.connecting = false → st.connected = false →
      (connect st true).1 = true ∧
      (connect st true).2.connected = false ∧
      (onopenHandler (connect st true).2).connected = true ∧
      (connect st false).1 = false) ∧
    (st.connecting = true → (connect st ctorOk).1 = st.connected) := by
  constructor
  · intro h1 h2
    refine ⟨?_, ?_, ?_, ?_⟩ <;> simp [connect, onopenHandler, h1, h2]
  · intro h1
    simp [connect, h1]

/-- C9 amended, instantiated at the pristine transport state. -/
theorem C9_amended_witness :
    (connect initialState true).1 = true ∧
    (connect initialState true).2.connected = false :=
  ⟨((C9_amended initialState true).1 rfl rfl).1,
   ((C9_amended initialState true).1 rfl rfl).2.1⟩

/-! ## C10 — a send that throws while connected is lost -/

/-- C10.  When transmission on an open socket of a connected transport
throws, `sendMessage` records the error and returns `false`, and the
message is not appended to the outbound queue — it will not be
retransmitted on reconnect (only messages sent while disconnected are
queued). -/
theorem C10_send_failure (st : WSState) (m : WireMessage)
    (h : st.connected = true) :
    (sendMessage st true false m).1 = false ∧
    (sendMessage st true false m).2.messageQueue = st.messageQueue ∧
    (sendMessage st true false m).2.lastError =
      some "Failed to send message" := by
  refine ⟨?_, ?_, ?_⟩ <;> simp [sendMessage, h]

/-- C10, instantiated on a connected transport. -/
theorem C10_send_failure_witness :
    (sendMessage stConnected true false msgA).1 = false ∧
    (sendMessage stConnected true false msgA).2.messageQueue =
      stConnected.messageQueue ∧
    (sendMessage stConnected true false msgA).2.lastError =
      some "Failed to send message" :=
  C10_send_failure stConnected msgA rfl

/-! ## C6 — short utterances -/

/-- The VAD configuration of the C6 counterexample: short silence timeout,
large minimum speech duration, so that the silence-confirmed utterance is
below the minimum. -/
def vadCfg6 : VADOptions :=
  { threshold := mkRat 1 10, silenceTimeout := 100, speechTimeout := 500,
    minSpeechDuration := 10000, maxSpeechDuration := 30000 }

/-- C6 counterexample.  A voiced run spanning `speechTimeoutMs` (samples at
0 ms and 500 ms above threshold) followed by lasting silence (below
threshold from 501 ms on, the 100 ms silence timer firing at 601 ms) whose
speech duration (101 ms) is below `minSpeechDurationMs` (10000 ms) emits
`SpeechStarted` — not nothing — before the silent discard returns the
detector to idle with no `SpeechEnded`. -/
theorem C6_counterexample :
    vadEvents vadCfg6 true
        [(0, mkRat 3 10), (500, mkRat 3 10), (501, mkRat 1 50)] =
      [VADEvent.speechStart] ∧
    (vadRun vadCfg6 true
        [(0, mkRat 3 10), (500, mkRat 3 10), (501, mkRat 1 50)]).1.speechDetected =
      false := by
  decide

/-- A machine with no pending timer is left untouched by the due-timer
loop. -/
lemma fireDueTimers_none (cfg : VADOptions) (recOk : Bool) (fuel t : Nat)
    (s : VADMachine) (h : earliestTimer s = none) :
    fireDueTimers cfg recOk fuel t s = (s, []) := by
  cases fuel <;> simp [fireDueTimers, h]

/-- A machine whose earliest pending timer is not yet due is left untouched
by the due-timer loop. -/
lemma fireDueTimers_not_due (cfg : VADOptions) (recOk : Bool) (fuel t : Nat)
    (s : VADMachine) (k : TimerKind) (d : Nat)
    (h : earliestTimer s = some (k, d)) (hnd : ¬ d ≤ t) :
    fireDueTimers cfg recOk fuel t s = (s, []) := by
  cases fuel <;> simp [fireDueTimers, h, hnd]

/-- Unfolding one due firing of the due-timer loop. -/
lemma fireDueTimers_fire (cfg : VADOptions) (recOk : Bool) (fuel t : Nat)
    (s : VADMachine) (k : TimerKind) (d : Nat)
    (h : earliestTimer s = some (k, d)) (hd : d ≤ t) :
    fireDueTimers cfg recOk (fuel + 1) t s =
      ((fireDueTimers cfg recOk fuel t (fireTimer cfg recOk k d s).1).1,
       (fireTimer cfg recOk k d s).2 ++
         (fireDueTimers cfg recOk fuel t (fireTimer cfg recOk k d s).1).2) := by
  simp [fireDueTimers, h, hd]

/-- A machine with no pending timer is left untouched by the final flush. -/
lemma flushTimers_none (cfg : VADOptions) (recOk : Bool) (fuel : Nat)
    (s : VADMachine) (h : earliestTimer s = none) :
    flushTimers cfg recOk fuel s = (s, []) := by
  cases fuel <;> simp [flushTimers, h]

/-- Unfolding one firing of the final flush. -/
lemma flushTimers_fire (cfg : VADOptions) (recOk : Bool) (fuel : Nat)
    (s : VADMachine) (k : TimerKind) (d : Nat)
    (h : earliestTimer s = some (k, d)) :
    flushTimers cfg recOk (fuel + 1) s =
      ((flushTimers cfg recOk fuel (fireTimer cfg recOk k d s).1).1,
       (fireTimer cfg recOk k d s).2 ++
         (flushTimers cfg recOk fuel (fireTimer cfg recOk k d s).1).2) := by
  simp [flushTimers, h]

/-- State after the first voiced sample at time 0: speech-arm timer pending
at `speechTimeout`. -/
def c6s1 (cfg : VADOptions) (hv : ℚ) : VADMachine :=
  { isListening := true, isActive := false, speechDetected := false,
    silenceDuration := 0, speechDuration := 0, lastAudioLevel := hv,
    speechStartTime := 0, silenceStartTime := 0,
    speechDeadline := some cfg.speechTimeout, silenceDeadline := none,
    maxDeadline := none }

/-- State after the speech-arm timer fired at `speechTimeout`: speech
active, max-duration timer pending. -/
def c6s2 (cfg : VADOptions) (hv : ℚ) : VADMachine :=
  { isListening := true, isActive := true, speechDetected := true,
    silenceDuration := 0, speechDuration := 0, lastAudioLevel := hv,
    speechStartTime := cfg.speechTimeout, silenceStartTime := 0,
    speechDeadline := none, silenceDeadline := none,
    maxDeadline := some (cfg.speechTimeout + cfg.maxSpeechDuration) }

/-- State after the voiced sample at time `v` during speech. -/
def c6s3 (cfg : VADOptions) (hv : ℚ) (v : Nat) : VADMachine :=
  { isListening := true, isActive := true, speechDetected := true,
    silenceDuration := 0, speechDuration := v - cfg.speechTimeout,
    lastAudioLevel := hv,
    speechStartTime := cfg.speechTimeout, silenceStartTime := 0,
    speechDeadline := none, silenceDeadline := none,
    maxDeadline := some (cfg.speechTimeout + cfg.maxSpeechDuration) }

/-- State after the silent sample at time `v + 1`: silence-confirm timer
pending. -/
def c6s4 (cfg : VADOptions) (hs : ℚ) (v : Nat) : VADMachine :=
  { isListening := true, isActive := true, speechDetected := true,
    silenceDuration := 0, speechDuration := v - cfg.speechTimeout,
    lastAudioLevel := hs,
    speechStartTime := cfg.speechTimeout, silenceStartTime := v + 1,
    speechDeadline := none,
    silenceDeadline := some (v + 1 + cfg.silenceTimeout),
    maxDeadline := some (cfg.speechTimeout + cfg.maxSpeechDuration) }

/-- Final state: the silence timer fired, the short utterance was discarded
by `resetState`, the machine is idle again. -/
def c6s5 (hs : ℚ) : VADMachine :=
  { isListening := true, isActive := false, speechDetected := false,
    silenceDuration := 0, speechDuration := 0, lastAudioLevel := hs,
    speechStartTime := 0, silenceStartTime := 0,
    speechDeadline := none, silenceDeadline := none, maxDeadline := none }

/-- C6 amended: on a voiced run that spans `speechTimeoutMs` (samples above
threshold at 0 and `v ≥ speechTimeoutMs`) followed by lasting silence (a
below-threshold sample at `v + 1` with no further input, the silence timer
confirming after `silenceTimeoutMs`), where the measured speech duration
stays below `minSpeechDurationMs` (itself at most `maxSpeechDurationMs`),
the detector emits exactly one event — `SpeechStarted`, when the speech-arm
timer fires — and then discards the utterance silently: no `SpeechEnded`
(nor `MaxDurationReached`) is emitted and the machine returns to the idle
no-speech state. -/
theorem C6_amended (cfg : VADOptions) (hv hs : ℚ) (v : Nat)
    (hThr : cfg.threshold < hv)
    (hSil : hs ≤ cfg.threshold)
    (hV : cfg.speechTimeout ≤ v)
    (hSpPos : 0 < cfg.speechTimeout)
    (hSilPos : 0 < cfg.silenceTimeout)
    (hDur : v + 1 + cfg.silenceTimeout - cfg.speechTimeout <
      cfg.minSpeechDuration)
    (hMax : cfg.minSpeechDuration ≤ cfg.maxSpeechDuration) :
    vadEvents cfg true [(0, hv), (v, hv), (v + 1, hs)] =
      [VADEvent.speechStart] ∧
    (vadRun cfg true [(0, hv), (v, hv), (v + 1, hs)]).1.speechDetected =
      false ∧
    (vadRun cfg true [(0, hv), (v, hv), (v + 1, hs)]).1.isActive = false := by
  have hgt : hv > cfg.threshold := hThr
  have hnv : ¬ hs > cfg.threshold := not_lt.2 hSil
  have hnd1 : ¬ cfg.speechTimeout + cfg.maxSpeechDuration ≤ v := by omega
  have hnd2 : ¬ cfg.speechTimeout + cfg.maxSpeechDuration ≤ v + 1 := by omega
  have hlt : v + 1 + cfg.silenceTimeout <
      cfg.speechTimeout + cfg.maxSpeechDuration := by omega
  have e1 : fireDueTimers cfg true timerFuel 0 vadStart = (vadStart, []) :=
    fireDueTimers_none cfg true timerFuel 0 vadStart rfl
  have e2 : handleAudioLevel cfg 0 hv vadStart = c6s1 cfg hv := by
    simp [handleAudioLevel, handleVoiceDetected, vadStart, c6s1, hgt]
  have e3 : earliestTimer (c6s1 cfg hv) =
      some (TimerKind.speechT, cfg.speechTimeout) := by
    simp [earliestTimer, c6s1]
  have e4 : fireTimer cfg true TimerKind.speechT cfg.speechTimeout
      (c6s1 cfg hv) = (c6s2 cfg hv, [VADEvent.speechStart]) := by
    simp [fireTimer, fireSpeechTimer, startSpeechRecording, c6s1, c6s2, hgt]
  have e5 : earliestTimer (c6s2 cfg hv) =
      some (TimerKind.maxT, cfg.speechTimeout + cfg.maxSpeechDuration) := by
    simp [earliestTimer, c6s2]
  have e6 : fireDueTimers cfg true timerFuel v (c6s1 cfg hv) =
      (c6s2 cfg hv, [VADEvent.speechStart]) := by
    rw [show timerFuel = 5 + 1 from rfl,
      fireDueTimers_fire cfg true 5 v (c6s1 cfg hv) _ _ e3 hV, e4]
    rw [fireDueTimers_not_due cfg true 5 v (c6s2 cfg hv) _ _ e5 hnd1]
    simp
  have e7 : handleAudioLevel cfg v hv (c6s2 cfg hv) = c6s3 cfg hv v := by
    simp [handleAudioLevel, handleVoiceDetected, c6s2, c6s3, hgt, hSpPos]
  have e8 : earliestTimer (c6s3 cfg hv v) =
      some (TimerKind.maxT, cfg.speechTimeout + cfg.maxSpeechDuration) := by
    simp [earliestTimer, c6s3]
  have e9 : fireDueTimers cfg true timerFuel (v + 1) (c6s3 cfg hv v) =
      (c6s3 cfg hv v, []) :=
    fireDueTimers_not_due cfg true timerFuel (v + 1) (c6s3 cfg hv v) _ _ e8 hnd2
  have e10 : handleAudioLevel cfg (v + 1) hs (c6s3 cfg hv v) =
      c6s4 cfg hs v := by
    simp [handleAudioLevel, handleSilenceDetected, c6s3, c6s4, hnv]
  have e11 : earliestTimer (c6s4 cfg hs v) =
      some (TimerKind.silenceT, v + 1 + cfg.silenceTimeout) := by
    simp [earliestTimer, c6s4, hlt]
  have e12 : fireTimer cfg true TimerKind.silenceT
      (v + 1 + cfg.silenceTimeout) (c6s4 cfg hs v) = (c6s5 hs, []) := by
    simp [fireTimer, fireSilenceTimer, endSpeechRecording, resetState,
      clearAllTimers, c6s4, c6s5, hDur]
  have e13 : flushTimers cfg true timerFuel (c6s4 cfg hs v) =
      (c6s5 hs, []) := by
    rw [show timerFuel = 5 + 1 from rfl,
      flushTimers_fire cfg true 5 (c6s4 cfg hs v) _ _ e11, e12]
    rw [flushTimers_none cfg true 5 (c6s5 hs) rfl]
    simp
  have emain : vadRun cfg true [(0, hv), (v, hv), (v + 1, hs)] =
      (c6s5 hs, [VADEvent.speechStart]) := by
    have s1 : vadStep cfg true (vadStart, []) (0, hv) = (c6s1 cfg hv, []) := by
      simp [vadStep, e1, e2]
    have s2 : vadStep cfg true (c6s1 cfg hv, []) (v, hv) =
        (c6s3 cfg hv v, [VADEvent.speechStart]) := by
      simp [vadStep, e6, e7]
    have s3 : vadStep cfg true (c6s3 cfg hv v, [VADEvent.speechStart])
        (v + 1, hs) = (c6s4 cfg hs v, [VADEvent.speechStart]) := by
      simp [vadStep, e9, e10]
    simp [vadRun, s1, s2, s3, e13]
  exact ⟨by simp [vadEvents, emain], by simp [emain, c6s5],
    by simp [emain, c6s5]⟩

/-- C6 amended, instantiated at the counterexample configuration and
trace. -/
theorem C6_amended_witness :
    vadEvents vadCfg6 true
        [(0, mkRat 3 10), (500, mkRat 3 10), (500 + 1, mkRat 1 50)] =
      [VADEvent.speechStart] ∧
    (vadRun vadCfg6 true
        [(0, mkRat 3 10), (500, mkRat 3 10),
         (500 + 1, mkRat 1 50)]).1.speechDetected = false ∧
    (vadRun vadCfg6 true
        [(0, mkRat 3 10), (500, mkRat 3 10),
         (500 + 1, mkRat 1 50)]).1.isActive = false :=
  C6_amended vadCfg6 (mkRat 3 10) (mkRat 1 50) 500 (by decide) (by decide)
    (by decide) (by decide) (by decide) (by decide) (by decide)

end Agentium
